import Mathlib

/-!
Shallow embedding of the awwninja multi-source news aggregation pipeline
(src/news_scraper.py, src/reddit_scraper.py, src/twitter_scraper.py,
src/utils.py, src/backend.py) and proofs about its collectors, retry
policy, composer, translator and voice selection.

External collaborators (BrightData, direct HTTP fetch, BeautifulSoup text
extraction, the Gemini language model, the MCP tool session and the TTS
engine) are modelled as oracle functions supplied through environment
records; everything the repository itself computes (control flow, fallback
order, placeholder substitution, dictionary building, headline extraction,
retry/attempt accounting, source selection, block assembly, language
gating, voice lookup) is embedded faithfully from the source.
-/

namespace AwwNinja

/-- Python `str.strip()` on the character list: drop leading and trailing
whitespace. -/
def trimChars (l : List Char) : List Char :=
  ((l.dropWhile Char.isWhitespace).reverse.dropWhile Char.isWhitespace).reverse

/-- Python `str.strip()`. -/
def strTrim (s : String) : String := ⟨trimChars s.data⟩

/-- Does the first character list start with the second? -/
def charsStartWith : List Char → List Char → Bool
  | _, [] => true
  | [], _ :: _ => false
  | c :: cs, p :: ps => c = p && charsStartWith cs ps

/-- Python `str.startswith`. -/
def strStartsWith (s pat : String) : Bool := charsStartWith s.data pat.data

/-- Does the first character list contain the second as a contiguous
substring? -/
def charsContain : List Char → List Char → Bool
  | [], pat => charsStartWith [] pat
  | l@(_ :: rest), pat => charsStartWith l pat || charsContain rest pat

/-- Python `pat in s` substring test. -/
def strContains (s pat : String) : Bool := charsContain s.data pat.data

/-- Python `str.split('\n')` on the character list. -/
def splitLinesAux : List Char → List Char → List String
  | [], cur => [⟨cur.reverse⟩]
  | c :: rest, cur =>
    if c = '\n' then ⟨cur.reverse⟩ :: splitLinesAux rest []
    else splitLinesAux rest (c :: cur)

/-- Python `str.split('\n')`. -/
def splitLines (s : String) : List String := splitLinesAux s.data []

/-- Exceptions relevant to the retry policy: `MCPOverloadedError` (raised in
`process_topic` when the message contains "Overloaded") versus every other
exception, carried with its message. -/
inductive Exc where
  | overloaded
  | other (msg : String)
deriving DecidableEq

/-- A Python dict from topic strings to summary strings, as an ordered
association list (Python dicts preserve insertion order). -/
abbrev TopicResult := List (String × String)

/-- The keys of a dict, in insertion order. -/
def dictKeys (d : TopicResult) : List String := d.map Prod.fst

/-- Python `d[k] = v`: overwrite in place if the key exists, else append. -/
def dictInsert (d : TopicResult) (k v : String) : TopicResult :=
  if k ∈ dictKeys d then d.map (fun p => if p.1 = k then (k, v) else p)
  else d ++ [(k, v)]

/-- Python `d.get(k)`: first value stored under `k`, if any. -/
def dictGet (d : TopicResult) (k : String) : Option String :=
  match d with
  | [] => none
  | (k', v) :: rest => if k' = k then some v else dictGet rest k

/-- Configuration of a tenacity `@retry` decorator: `stop_after_attempt`
bound, the retryable-exception predicate and the `reraise` flag. -/
structure RetryConfig where
  maxAttempts : Nat
  retryOn : Exc → Bool
  reraise : Bool

/-- Result of running an operation under tenacity: success with the attempt
count, an exception propagated as-is, or a `RetryError` wrapping the last
exception (tenacity behaviour when `reraise=False` and attempts are
exhausted). -/
inductive RetryResult (α : Type) where
  | ok (a : α) (attempts : Nat)
  | raised (e : Exc) (attempts : Nat)
  | retryError (e : Exc) (attempts : Nat)
deriving DecidableEq

/-- Attempt counter of a retry outcome. -/
def RetryResult.attempts : RetryResult α → Nat
  | .ok _ n => n
  | .raised _ n => n
  | .retryError _ n => n

/-- Tenacity retry loop: attempt `n` runs `op n`; success returns, a
non-retryable exception propagates immediately, a retryable one retries
until the attempt bound, after which the last exception is re-raised
(`reraise=True`) or wrapped in a `RetryError`. `fuel` is the number of
attempts still allowed (the `0` case is unreachable for positive bounds). -/
def retryGo (cfg : RetryConfig) (op : Nat → Except Exc α) : Nat → Nat → RetryResult α
  | 0, n => .retryError (.other "unreachable") n
  | fuel + 1, n =>
    match op n with
    | .ok a => .ok a n
    | .error e =>
      if cfg.retryOn e then
        if fuel = 0 then
          if cfg.reraise then .raised e n else .retryError e n
        else retryGo cfg op fuel (n + 1)
      else .raised e n

/-- Run an operation under a tenacity retry configuration, starting at
attempt 1. -/
def retryRun (cfg : RetryConfig) (op : Nat → Except Exc α) : RetryResult α :=
  retryGo cfg op cfg.maxAttempts 1

/-- Retry configuration of `process_topic` / `process_twitter_topic`
(reddit_scraper.py lines 74-79, twitter_scraper.py lines 73-78):
`stop_after_attempt(3)`, `retry_if_exception_type(MCPOverloadedError)`,
`reraise=True`. -/
def processTopicRetryConfig : RetryConfig :=
  { maxAttempts := 3
    retryOn := fun e => match e with | .overloaded => true | .other _ => false
    reraise := true }

/-- Retry configuration of the decorator on `NewsScraper.scrape_news`
(news_scraper.py lines 35-38): `stop_after_attempt(3)` with no
`retry_if_exception_type` filter (tenacity then retries every exception)
and no `reraise=True` (tenacity then raises `RetryError` on exhaustion). -/
def newsRetryConfig : RetryConfig :=
  { maxAttempts := 3
    retryOn := fun _ => true
    reraise := false }

/-- Python `"Overloaded" in str(e)` test from `process_topic`. -/
def containsOverloaded (msg : String) : Bool :=
  strContains msg "Overloaded"

/-- Body of the per-topic exception translation in `process_topic` /
`process_twitter_topic` (lines 106-113): an agent exception whose message
contains "Overloaded" is re-raised as `MCPOverloadedError`, anything else
is re-raised unchanged. -/
def processTopicAttempt (agentResp : Except String String) : Except Exc String :=
  match agentResp with
  | .ok s => .ok s
  | .error msg =>
    if containsOverloaded msg then .error .overloaded else .error (.other msg)

/-- Environment of a forum/social collector run: whether the MCP stdio
session can be established at all, and the per-topic, per-attempt outcome
of `agent.ainvoke` (content returned, or exception message raised). -/
structure ForumEnv where
  sessionOk : Bool
  agent : String → Nat → Except String String

/-- Embedding of `process_topic` (reddit_scraper.py lines 74-113) /
`process_twitter_topic`: one per-topic agent call wrapped in the retry
decorator, with the Overloaded-message translation applied per attempt. -/
def process_topic (env : ForumEnv) (topic : String) : RetryResult String :=
  retryRun processTopicRetryConfig (fun n => processTopicAttempt (env.agent topic n))

/-- Unavailability placeholder of the Reddit collector
(reddit_scraper.py line 141). -/
def redditPlaceholder (topic : String) : String :=
  "Reddit discussions about " ++ topic ++ " are currently unavailable."

/-- Unavailability placeholder of the Twitter collector
(twitter_scraper.py line 141). -/
def twitterPlaceholder (topic : String) : String :=
  "Twitter discussions about " ++ topic ++ " are currently unavailable."

/-- The sequential per-topic loop of `scrape_reddit_topics` /
`scrape_twitter_topics` (lines 127-132): build the results dict topic by
topic; `none` models an exception escaping the loop (a topic whose
processing raised), which is caught by the enclosing `except`. -/
def collectLoop (run : String → RetryResult String) :
    List String → TopicResult → Option TopicResult
  | [], acc => some acc
  | t :: ts, acc =>
    match run t with
    | .ok s _ => collectLoop run ts (dictInsert acc t s)
    | .raised _ _ => none
    | .retryError _ _ => none

/-- Result wrapper returned by the Reddit collector:
`{"reddit_analysis": results}`. -/
structure RedditAnalysis where
  reddit_analysis : TopicResult
deriving DecidableEq

/-- Result wrapper returned by the Twitter collector:
`{"twitter_analysis": results}`. -/
structure TwitterAnalysis where
  twitter_analysis : TopicResult
deriving DecidableEq

/-- Embedding of `scrape_reddit_topics` (reddit_scraper.py lines 115-142): establish the
session and run the per-topic loop; any exception (session setup failure or
a topic raising out of `process_topic`) is caught by the outer `except`,
which rebuilds the dict mapping every topic to the placeholder. -/
def scrape_reddit_topics (env : ForumEnv) (topics : List String) : RedditAnalysis :=
  if env.sessionOk then
    match collectLoop (process_topic env) topics [] with
    | some res => ⟨res⟩
    | none => ⟨topics.map (fun t => (t, redditPlaceholder t))⟩
  else ⟨topics.map (fun t => (t, redditPlaceholder t))⟩

/-- Embedding of `process_twitter_topic` (twitter_scraper.py lines 73-113): identical
retry structure to `process_topic`, driving the Twitter agent. -/
def process_twitter_topic (env : ForumEnv) (topic : String) : RetryResult String :=
  retryRun processTopicRetryConfig (fun n => processTopicAttempt (env.agent topic n))

/-- Embedding of `scrape_twitter_topics` (twitter_scraper.py lines 115-142): same shape
as the Reddit collector with the Twitter placeholder. -/
def scrape_twitter_topics (env : ForumEnv) (topics : List String) : TwitterAnalysis :=
  if env.sessionOk then
    match collectLoop (process_twitter_topic env) topics [] with
    | some res => ⟨res⟩
    | none => ⟨topics.map (fun t => (t, twitterPlaceholder t))⟩
  else ⟨topics.map (fun t => (t, twitterPlaceholder t))⟩

/-- Environment of the News collector: the URL-encoding helper, the two
fetch mechanisms (BrightData API, direct `requests.get`), BeautifulSoup
text extraction and the Gemini summarization call. `Except.error` models a
raised exception with its message. -/
structure NewsEnv where
  quotePlus : String → String
  brightdata : String → Except String String
  directFetch : String → Except String String
  getText : String → String
  summarize : String → Except String String

/-- Embedding of `generate_valid_news_url` (utils.py lines 21-30). -/
def generate_valid_news_url (env : NewsEnv) (keyword : String) : String :=
  "https://news.google.com/search?q=" ++ env.quotePlus keyword ++ "&tbs=sbd:1"

/-- Embedding of `generate_news_urls_to_scrape` (utils.py lines 32-36). -/
def generate_news_urls_to_scrape (env : NewsEnv) (list_of_keywords : List String) : TopicResult :=
  list_of_keywords.foldl (fun d k => dictInsert d k (generate_valid_news_url env k)) []

/-- Embedding of `clean_html_to_text` (utils.py lines 61-65): BeautifulSoup `get_text`
followed by `.strip()`. -/
def clean_html_to_text (env : NewsEnv) (html_content : String) : String :=
  strTrim (env.getText html_content)

/-- Loop body of `extract_headlines` (utils.py lines 82-93): a "More" line
flushes the first line of the current block into the headline list;
other lines accumulate into the current block; a trailing block also
contributes its first line. -/
def headlinesLoop : List String → List String → List String → List String
  | [], headlines, [] => headlines
  | [], headlines, c :: _ => headlines ++ [c]
  | line :: rest, headlines, current =>
    if line = "More" then
      match current with
      | [] => headlinesLoop rest headlines []
      | c :: _ => headlinesLoop rest (headlines ++ [c]) []
    else headlinesLoop rest headlines (current ++ [line])

/-- Embedding of `extract_headlines` (utils.py lines 67-95): strip and drop empty lines,
collect block-leading headlines, join with newlines. -/
def extract_headlines (cleaned_text : String) : String :=
  let lines := ((splitLines cleaned_text).map strTrim).filter (fun l => !l.isEmpty)
  String.intercalate "\n" (headlinesLoop lines [] [])

/-- Unavailability placeholder of the News collector
(news_scraper.py line 140). -/
def newsPlaceholder (topic : String) : String :=
  "We couldn\x27t retrieve the latest news about " ++ topic ++ " at this time."

/-- Empty-headline substitution (news_scraper.py lines 113-117):
`if not headlines or headlines.strip() == ""` replaces the extracted
headlines with the "Latest news about {topic}" stand-in. -/
def chooseHeadlines (topic headlines : String) : String :=
  if headlines.isEmpty || (strTrim headlines).isEmpty
    then "Latest news about " ++ topic else headlines

/-- Processing of one topic after a page has been fetched
(news_scraper.py lines 94-134): clean the HTML, extract headlines,
substitute the "Latest news about {topic}" stand-in when extraction is
empty, then summarize with Gemini; a summarization exception is caught by
the per-topic `except` which records the placeholder. -/
def news_pipeline_after_fetch (env : NewsEnv) (topic html : String) : String :=
  let clean_text := clean_html_to_text env html
  let headlines := extract_headlines clean_text
  match env.summarize (chooseHeadlines topic headlines) with
  | .ok summary => summary
  | .error _ => newsPlaceholder topic

/-- Per-topic body of `NewsScraper.scrape_news` (news_scraper.py lines
62-146): generate the search URL, try the BrightData scrape and on failure
the direct-request fallback, then run the post-fetch pipeline; any
exception in the block is caught by the per-topic `except`, which records
the placeholder for this topic only. -/
def scrape_news_topic (env : NewsEnv) (topic : String) : String :=
  let urls := generate_news_urls_to_scrape env [topic]
  match dictGet urls topic with
  | none => newsPlaceholder topic
  | some url =>
    let fetched : Except String String :=
      match env.brightdata url with
      | .ok html => .ok html
      | .error _ => env.directFetch url
    match fetched with
    | .error _ => newsPlaceholder topic
    | .ok html => news_pipeline_after_fetch env topic html

/-- Result wrapper returned by the News collector:
`{"news_analysis": results}`. -/
structure NewsAnalysis where
  news_analysis : TopicResult
deriving DecidableEq

/-- Embedding of `NewsScraper.scrape_news` (news_scraper.py lines 39-152): sequential
per-topic loop building the results dict. The tenacity decorator on this
method (modelled by `newsRetryConfig`) never observes an exception because
the body catches every per-topic error, so the loop itself is the
behaviour. -/
def scrape_news (env : NewsEnv) (topics : List String) : NewsAnalysis :=
  ⟨topics.foldl (fun d t => dictInsert d t (scrape_news_topic env t)) []⟩

/-- Python truthiness of an optional string (`if news_content:`): `None`
and the empty string are falsy. -/
def truthy : Option String → Bool
  | none => false
  | some s => !s.isEmpty

/-- Embedding of `news_data["news_analysis"].get(topic) if news_data else ''`
(utils.py line 160). -/
def newsContentFor (news_data : Option NewsAnalysis) (topic : String) : Option String :=
  match news_data with
  | none => some ""
  | some d => dictGet d.news_analysis topic

/-- Embedding of `reddit_data["reddit_analysis"].get(topic) if reddit_data else ''`
(utils.py line 161). -/
def redditContentFor (reddit_data : Option RedditAnalysis) (topic : String) : Option String :=
  match reddit_data with
  | none => some ""
  | some d => dictGet d.reddit_analysis topic

/-- Embedding of `twitter_data["twitter_analysis"].get(topic) if twitter_data else ''`
(utils.py line 162). -/
def twitterContentFor (twitter_data : Option TwitterAnalysis) (topic : String) : Option String :=
  match twitter_data with
  | none => some ""
  | some d => dictGet d.twitter_analysis topic

/-- Per-topic block assembly of `generate_broadcast_news` (utils.py lines
159-176): gather whichever source contents are truthy; topics with an
empty context list contribute no block. -/
def topicBlockFor (news_data : Option NewsAnalysis) (reddit_data : Option RedditAnalysis)
    (twitter_data : Option TwitterAnalysis) (topic : String) : Option String :=
  let nc := newsContentFor news_data topic
  let rc := redditContentFor reddit_data topic
  let tc := twitterContentFor twitter_data topic
  let context : List String :=
    (if truthy nc then ["OFFICIAL NEWS CONTENT:\n" ++ nc.getD ""] else []) ++
    (if truthy rc then ["REDDIT DISCUSSION CONTENT:\n" ++ rc.getD ""] else []) ++
    (if truthy tc then ["TWITTER DISCUSSION CONTENT:\n" ++ tc.getD ""] else [])
  if context.isEmpty then none
  else some ("TOPIC: " ++ topic ++ "\n\n" ++ String.intercalate "\n\n" context)

/-- Topic blocks collected over the topic list, in order
(utils.py lines 158-176). -/
def topicBlocks (news_data : Option NewsAnalysis) (reddit_data : Option RedditAnalysis)
    (twitter_data : Option TwitterAnalysis) (topics : List String) : List String :=
  topics.filterMap (topicBlockFor news_data reddit_data twitter_data)

/-- Stand-in for the broadcast-writer system prompt (utils.py lines
133-152); the spec places the literal prompt wording out of scope. -/
def broadcastSystemPrompt : String := "broadcast news writer system prompt"

/-- Embedding of `generate_broadcast_news` (utils.py lines 131-199): build one combined
prompt over all topic blocks and issue a single Gemini call, whose count is
the second component; a model exception propagates (`raise e`). -/
def generate_broadcast_news (model : String → Except String String)
    (news_data : Option NewsAnalysis) (reddit_data : Option RedditAnalysis)
    (twitter_data : Option TwitterAnalysis) (topics : List String) :
    Except String String × Nat :=
  let blocks := topicBlocks news_data reddit_data twitter_data topics
  let user_prompt := "Create broadcast segments for these topics using available sources:\n\n"
    ++ String.intercalate "\n\n--- NEW TOPIC ---\n\n" blocks
  let full_prompt := broadcastSystemPrompt ++ "\n\n" ++ user_prompt
  (model full_prompt, 1)

/-- Embedding of `translate_for_language` (utils.py lines 335-349): identity without any
model call when the target language starts with "en", otherwise one Gemini
call whose trimmed text is returned; the second component counts the model
calls made. -/
def translate_for_language (model : String → Except String String)
    (text target_lang : String) : Except String String × Nat :=
  if strStartsWith target_lang "en" then (.ok text, 0)
  else
    let prompt := "Translate the following broadcast news script to " ++ target_lang
      ++ ". Maintain paragraph structure, formal broadcast tone, no extra commentary.\n\n"
      ++ text
    (match model prompt with
     | .ok s => .ok (strTrim s)
     | .error e => .error e, 1)

/-- Embedding of `VOICE_BY_LANG` (utils.py lines 317-329): bare two-letter language keys
to Murf voice ids. -/
def VOICE_BY_LANG : TopicResult :=
  [("en", "wayne"), ("hi", "shweta"), ("es", "valeria"), ("fr", "victor"),
   ("de", "max"), ("it", "vera"), ("ja", "kei"), ("ko", "seo-yun"),
   ("pt", "pedro"), ("ru", "sofia"), ("zh", "xing")]

/-- Embedding of `get_voice_for_language` (utils.py lines 331-333):
`VOICE_BY_LANG.get(lang_code, "en-US-natalie")`. -/
def get_voice_for_language (lang_code : String) : String :=
  (dictGet VOICE_BY_LANG lang_code).getD "en-US-natalie"

/-- The request model (models.py): topics, source selection, Murf locale. -/
structure NewsRequest where
  topics : List String
  source_type : String
  language : String

/-- Backend environment: collector environments plus the composer model,
the translation model and the Murf TTS call. -/
structure BackendEnv where
  newsEnv : NewsEnv
  redditEnv : ForumEnv
  twitterEnv : ForumEnv
  composeModel : String → Except String String
  translateModel : String → Except String String
  tts : String → String → Except String String

/-- Embedding of `req.source_type in {"news", "both", "all"}` (backend.py line 38). -/
def selectsNews (source_type : String) : Bool :=
  source_type = "news" || source_type = "both" || source_type = "all"

/-- Embedding of `req.source_type in {"reddit", "both", "all"}` (backend.py line 48). -/
def selectsReddit (source_type : String) : Bool :=
  source_type = "reddit" || source_type = "both" || source_type = "all"

/-- Embedding of `req.source_type in {"twitter", "all"}` (backend.py line 61). -/
def selectsTwitter (source_type : String) : Bool :=
  source_type = "twitter" || source_type = "all"

/-- The aggregated bundle `results` built by the backend: one optional
entry per source, present exactly for the invoked collectors. -/
structure Results where
  news : Option NewsAnalysis
  reddit : Option RedditAnalysis
  twitter : Option TwitterAnalysis

/-- Collector-invocation phase of `generate_news_audio` (backend.py lines
34-71): each collector runs exactly when its selection test passes and its
return value is stored in the bundle. (The backend try/except around the
Reddit and Twitter calls never fires, because those collectors catch all
their own exceptions.) -/
def collectResults (env : BackendEnv) (req : NewsRequest) : Results :=
  { news := if selectsNews req.source_type
      then some (scrape_news env.newsEnv req.topics) else none
    reddit := if selectsReddit req.source_type
      then some (scrape_reddit_topics env.redditEnv req.topics) else none
    twitter := if selectsTwitter req.source_type
      then some (scrape_twitter_topics env.twitterEnv req.topics) else none }

/-- The successful JSON payload of `generate_news_audio`. -/
structure BackendResponse where
  summary_text : String
  audio_content : String
deriving DecidableEq

/-- Embedding of `generate_news_audio` (backend.py lines 26-138): collect the selected
sources, compose the broadcast summary, translate unless the language is
"en-US", pick the voice and synthesize; any exception reaches the outer
handler which returns `HTTPException(status_code=500, detail=str(e))`,
modelled as `.error (500, message)`. -/
def generate_news_audio (env : BackendEnv) (req : NewsRequest) :
    Except (Nat × String) BackendResponse :=
  let results := collectResults env req
  match (generate_broadcast_news env.composeModel results.news results.reddit
      results.twitter req.topics).1 with
  | .error e => .error (500, e)
  | .ok summary_en =>
    let final_summary : Except String String :=
      if req.language ≠ "en-US"
        then (translate_for_language env.translateModel summary_en req.language).1
        else .ok summary_en
    match final_summary with
    | .error e => .error (500, e)
    | .ok fs =>
      let voice_id := get_voice_for_language req.language
      match env.tts fs voice_id with
      | .error e => .error (500, e)
      | .ok audio => .ok ⟨fs, audio⟩

/-! ## Supporting lemmas about the dictionary and loop combinators -/

/-- Inserting a fresh key appends the pair. -/
lemma dictInsert_fresh (d : TopicResult) (k v : String) (h : k ∉ dictKeys d) :
    dictInsert d k v = d ++ [(k, v)] := by
  simp [dictInsert, h]

/-- Keys of an appended dict. -/
lemma dictKeys_append (d₁ d₂ : TopicResult) :
    dictKeys (d₁ ++ d₂) = dictKeys d₁ ++ dictKeys d₂ := by
  simp [dictKeys]

/-- A key absent from a dict looks up to `none`. -/
lemma dictGet_eq_none (d : TopicResult) (k : String) (h : k ∉ dictKeys d) :
    dictGet d k = none := by
  induction d with
  | nil => rfl
  | cons p rest ih =>
    obtain ⟨pk, pv⟩ := p
    simp only [dictKeys, List.map_cons, List.mem_cons] at h
    push_neg at h
    simp only [dictGet, if_neg (fun he : pk = k => h.1 he.symm)]
    exact ih h.2

/-- Appending a single fresh pair makes its key look up to its value. -/
lemma dictGet_append_self (d : TopicResult) (k v : String) (h : k ∉ dictKeys d) :
    dictGet (d ++ [(k, v)]) k = some v := by
  induction d with
  | nil => simp [dictGet]
  | cons p rest ih =>
    obtain ⟨pk, pv⟩ := p
    simp only [dictKeys, List.map_cons, List.mem_cons] at h
    push_neg at h
    simp only [List.cons_append, dictGet, if_neg (fun he : pk = k => h.1 he.symm)]
    exact ih h.2

/-- Appending a pair with a different key does not change a lookup. -/
lemma dictGet_append_single (d : TopicResult) (k t v : String) (h : k ≠ t) :
    dictGet (d ++ [(t, v)]) k = dictGet d k := by
  induction d with
  | nil =>
    simp only [List.nil_append, dictGet, if_neg (fun he : t = k => h he.symm)]
  | cons p rest ih =>
    obtain ⟨pk, pv⟩ := p
    simp only [List.cons_append, dictGet]
    by_cases hp : pk = k
    · simp [hp]
    · simp only [if_neg hp]
      exact ih

/-- Behaviour of the dict-building fold shared by `scrape_news` and
`generate_news_urls_to_scrape`: over distinct fresh topics it produces
exactly one entry per topic, each carrying the per-topic value. -/
lemma foldIns_spec (f : String → String) :
    ∀ (ts : List String) (acc : TopicResult), ts.Nodup →
    (∀ t ∈ ts, t ∉ dictKeys acc) →
    dictKeys (ts.foldl (fun d t => dictInsert d t (f t)) acc) = dictKeys acc ++ ts
    ∧ (∀ k, k ∉ ts →
        dictGet (ts.foldl (fun d t => dictInsert d t (f t)) acc) k = dictGet acc k)
    ∧ (∀ t ∈ ts, dictGet (ts.foldl (fun d t => dictInsert d t (f t)) acc) t = some (f t))
    ∧ (∀ p ∈ ts.foldl (fun d t => dictInsert d t (f t)) acc, p ∈ acc ∨ p.2 = f p.1) := by
  intro ts
  induction ts with
  | nil =>
    intro acc _ _
    refine ⟨by simp, fun k _ => rfl, by simp, fun p hp => Or.inl hp⟩
  | cons t ts' ih =>
    intro acc hnd hfresh
    have hta : t ∉ dictKeys acc := hfresh t (List.mem_cons_self t ts')
    have hnd' : ts'.Nodup := (List.nodup_cons.mp hnd).2
    have htts' : t ∉ ts' := (List.nodup_cons.mp hnd).1
    have hacc' : ∀ u ∈ ts', u ∉ dictKeys (dictInsert acc t (f t)) := by
      intro u hu
      rw [dictInsert_fresh acc t (f t) hta, dictKeys_append]
      simp only [List.mem_append, dictKeys, List.map_cons, List.map_nil,
        List.mem_singleton, not_or]
      exact ⟨hfresh u (List.mem_cons_of_mem t hu),
        fun he => htts' (he ▸ hu)⟩
    have IH := ih (dictInsert acc t (f t)) hnd' hacc'
    simp only [List.foldl_cons]
    refine ⟨?_, ?_, ?_, ?_⟩
    · rw [IH.1, dictInsert_fresh acc t (f t) hta, dictKeys_append]
      simp [dictKeys]
    · intro k hk
      simp only [List.mem_cons, not_or] at hk
      rw [IH.2.1 k hk.2, dictInsert_fresh acc t (f t) hta,
        dictGet_append_single acc k t (f t) hk.1]
    · intro u hu
      rcases List.mem_cons.mp hu with he | hu'
      · subst he
        rw [IH.2.1 u htts', dictInsert_fresh acc u (f u) hta,
          dictGet_append_self acc u (f u) hta]
      · exact IH.2.2.1 u hu'
    · intro p hp
      rcases IH.2.2.2 p hp with hmem | hval
      · rw [dictInsert_fresh acc t (f t) hta] at hmem
        rcases List.mem_append.mp hmem with h1 | h2
        · exact Or.inl h1
        · right
          rcases List.mem_singleton.mp h2 with rfl
          rfl
      · exact Or.inr hval

/-- Behaviour of the Reddit/Twitter per-topic loop when it completes
without an escaping exception: one entry per topic, each value produced by
a successful `run` of its own topic. -/
lemma collectLoop_spec (run : String → RetryResult String) :
    ∀ (ts : List String) (acc res : TopicResult), ts.Nodup →
    (∀ t ∈ ts, t ∉ dictKeys acc) →
    collectLoop run ts acc = some res →
    dictKeys res = dictKeys acc ++ ts
    ∧ (∀ p ∈ res, p ∈ acc ∨ ∃ n, run p.1 = .ok p.2 n) := by
  intro ts
  induction ts with
  | nil =>
    intro acc res _ _ hres
    simp only [collectLoop, Option.some_inj] at hres
    subst hres
    exact ⟨by simp, fun p hp => Or.inl hp⟩
  | cons t ts' ih =>
    intro acc res hnd hfresh hres
    have hta : t ∉ dictKeys acc := hfresh t (List.mem_cons_self t ts')
    have hnd' : ts'.Nodup := (List.nodup_cons.mp hnd).2
    have htts' : t ∉ ts' := (List.nodup_cons.mp hnd).1
    simp only [collectLoop] at hres
    cases hrun : run t with
    | ok s n =>
      rw [hrun] at hres
      have hacc' : ∀ u ∈ ts', u ∉ dictKeys (dictInsert acc t s) := by
        intro u hu
        rw [dictInsert_fresh acc t s hta, dictKeys_append]
        simp only [List.mem_append, dictKeys, List.map_cons, List.map_nil,
          List.mem_singleton, not_or]
        exact ⟨hfresh u (List.mem_cons_of_mem t hu), fun he => htts' (he ▸ hu)⟩
      have IH := ih (dictInsert acc t s) res hnd' hacc' hres
      refine ⟨?_, ?_⟩
      · rw [IH.1, dictInsert_fresh acc t s hta, dictKeys_append]
        simp [dictKeys]
      · intro p hp
        rcases IH.2 p hp with hmem | hok
        · rw [dictInsert_fresh acc t s hta] at hmem
          rcases List.mem_append.mp hmem with h1 | h2
          · exact Or.inl h1
          · right
            rcases List.mem_singleton.mp h2 with rfl
            exact ⟨n, hrun⟩
        · exact Or.inr hok
    | raised e n => rw [hrun] at hres; exact absurd hres (by simp)
    | retryError e n => rw [hrun] at hres; exact absurd hres (by simp)

/-- When some topic in the list never succeeds, the Reddit/Twitter
per-topic loop raises (returns `none`). -/
lemma collectLoop_eq_none (run : String → RetryResult String) :
    ∀ (ts : List String) (acc : TopicResult),
    (∃ t ∈ ts, ∀ s n, run t ≠ .ok s n) →
    collectLoop run ts acc = none := by
  intro ts
  induction ts with
  | nil =>
    intro acc h
    rcases h with ⟨t, ht, _⟩
    exact absurd ht (List.not_mem_nil t)
  | cons t ts' ih =>
    intro acc h
    rcases h with ⟨w, hw, hfail⟩
    simp only [collectLoop]
    cases hrun : run t with
    | ok s n =>
      rcases List.mem_cons.mp hw with rfl | hw'
      · exact absurd hrun (hfail s n)
      · exact ih _ ⟨w, hw', hfail⟩
    | raised e n => rfl
    | retryError e n => rfl

/-- Attempt counter of the retry loop is bounded by the remaining fuel. -/
lemma retryGo_attempts_le (cfg : RetryConfig) (op : Nat → Except Exc α) :
    ∀ (fuel n : Nat), (retryGo cfg op (fuel + 1) n).attempts ≤ n + fuel := by
  intro fuel
  induction fuel with
  | zero =>
    intro n
    simp only [retryGo]
    cases op n with
    | ok a => simp [RetryResult.attempts]
    | error e =>
      by_cases hr : cfg.retryOn e
      · by_cases hre : cfg.reraise <;> simp [hr, hre, RetryResult.attempts]
      · simp [hr, RetryResult.attempts]
  | succ f ihf =>
    intro n
    simp only [retryGo]
    cases op n with
    | ok a => simp [RetryResult.attempts]
    | error e =>
      by_cases hr : cfg.retryOn e
      · simp only [hr, if_true, Nat.succ_ne_zero, if_false]
        calc (retryGo cfg op (f + 1) (n + 1)).attempts ≤ (n + 1) + f := ihf (n + 1)
          _ = n + (f + 1) := by omega
      · simp [hr, RetryResult.attempts]

/-- A retry run makes at most `maxAttempts` attempts (for positive bounds). -/
lemma retryRun_attempts_le (cfg : RetryConfig) (op : Nat → Except Exc α)
    (h : 1 ≤ cfg.maxAttempts) :
    (retryRun cfg op).attempts ≤ cfg.maxAttempts := by
  unfold retryRun
  obtain ⟨f, hf⟩ : ∃ f, cfg.maxAttempts = f + 1 :=
    ⟨cfg.maxAttempts - 1, by omega⟩
  rw [hf]
  calc (retryGo cfg op (f + 1) 1).attempts ≤ 1 + f := retryGo_attempts_le cfg op f 1
    _ ≤ f + 1 := by omega

/-- The singleton URL dict built for one topic looks up to its URL. -/
lemma dictGet_urls_singleton (env : NewsEnv) (t : String) :
    dictGet (generate_news_urls_to_scrape env [t]) t
      = some (generate_valid_news_url env t) := by
  simp [generate_news_urls_to_scrape, dictInsert, dictKeys, dictGet]

/-- The post-fetch pipeline yields either the placeholder or a successful
Gemini summary. -/
lemma news_pipeline_cases (env : NewsEnv) (t html : String) :
    news_pipeline_after_fetch env t html = newsPlaceholder t
    ∨ ∃ hdl, env.summarize hdl = .ok (news_pipeline_after_fetch env t html) := by
  simp only [news_pipeline_after_fetch]
  cases hs : env.summarize
      (chooseHeadlines t (extract_headlines (clean_html_to_text env html))) with
  | ok s => exact Or.inr ⟨_, by rw [hs]⟩
  | error e => exact Or.inl rfl

/-- Every per-topic News value is either the News placeholder or a
successful Gemini summary. -/
lemma scrape_news_topic_cases (env : NewsEnv) (t : String) :
    scrape_news_topic env t = newsPlaceholder t
    ∨ ∃ hdl, env.summarize hdl = .ok (scrape_news_topic env t) := by
  simp only [scrape_news_topic, dictGet_urls_singleton]
  cases hb : env.brightdata (generate_valid_news_url env t) with
  | ok html => exact news_pipeline_cases env t html
  | error e =>
    cases hd : env.directFetch (generate_valid_news_url env t) with
    | ok html => exact news_pipeline_cases env t html
    | error e2 => exact Or.inl rfl

/-- When every summarization call fails, each News topic degrades to the
placeholder. -/
lemma scrape_news_topic_summarize_fail (env : NewsEnv) (t : String)
    (h : ∀ s, ∃ m, env.summarize s = .error m) :
    scrape_news_topic env t = newsPlaceholder t := by
  rcases scrape_news_topic_cases env t with hp | ⟨hdl, hok⟩
  · exact hp
  · rcases h hdl with ⟨m, hm⟩
    rw [hm] at hok
    exact absurd hok (by simp)

/-- A first-attempt non-retryable agent failure makes `process_topic`
propagate immediately as a raised exception. -/
lemma process_topic_nonretryable_raises (env : ForumEnv) (t : String)
    (h : ∃ m, env.agent t 1 = .error m ∧ containsOverloaded m = false) :
    ∃ m, process_topic env t = .raised (.other m) 1 := by
  rcases h with ⟨m, hm, hc⟩
  refine ⟨m, ?_⟩
  simp [process_topic, retryRun, processTopicRetryConfig, retryGo,
    processTopicAttempt, hm, hc]

/-- Membership form of the News selection test (backend.py line 38). -/
lemma selectsNews_iff (s : String) :
    selectsNews s = true ↔ (s = "news" ∨ s = "both" ∨ s = "all") := by
  simp [selectsNews, or_assoc]

/-- Membership form of the Reddit selection test (backend.py line 48). -/
lemma selectsReddit_iff (s : String) :
    selectsReddit s = true ↔ (s = "reddit" ∨ s = "both" ∨ s = "all") := by
  simp [selectsReddit, or_assoc]

/-- Membership form of the Twitter selection test (backend.py line 61). -/
lemma selectsTwitter_iff (s : String) :
    selectsTwitter s = true ↔ (s = "twitter" ∨ s = "all") := by
  simp [selectsTwitter]

/-- Keys and values of the all-placeholder result rebuilt by the outer
exception handler of the Reddit/Twitter collectors. -/
lemma placeholderMap_spec (ph : String → String) (topics : List String) :
    dictKeys (topics.map (fun t => (t, ph t))) = topics
    ∧ ∀ p ∈ topics.map (fun t => (t, ph t)), p.2 = ph p.1 := by
  constructor
  · induction topics with
    | nil => rfl
    | cons t ts ih => simpa [dictKeys] using ih
  · intro p hp
    rcases List.mem_map.mp hp with ⟨t, _, rfl⟩
    rfl

/-! ## Claim theorems -/

/-- C1: for every non-empty list of distinct topics, each collector
(`scrape_news`, `scrape_reddit_topics`, `scrape_twitter_topics`) returns a
mapping whose key list is exactly the input topic list, with every topic
mapped either to a real summary produced by that source's adapter or to
that source's deterministic unavailability placeholder — never a partial
mapping. -/
theorem C1_collectors_cover_topic_set (nenv : NewsEnv) (fenv tenv : ForumEnv)
    (topics : List String) (hne : topics ≠ []) (hnd : topics.Nodup) :
    (dictKeys (scrape_news nenv topics).news_analysis = topics
      ∧ ∀ p ∈ (scrape_news nenv topics).news_analysis,
          p.2 = newsPlaceholder p.1 ∨ ∃ hdl, nenv.summarize hdl = .ok p.2)
    ∧ (dictKeys (scrape_reddit_topics fenv topics).reddit_analysis = topics
      ∧ ∀ p ∈ (scrape_reddit_topics fenv topics).reddit_analysis,
          p.2 = redditPlaceholder p.1 ∨ ∃ n, process_topic fenv p.1 = .ok p.2 n)
    ∧ (dictKeys (scrape_twitter_topics tenv topics).twitter_analysis = topics
      ∧ ∀ p ∈ (scrape_twitter_topics tenv topics).twitter_analysis,
          p.2 = twitterPlaceholder p.1
            ∨ ∃ n, process_twitter_topic tenv p.1 = .ok p.2 n) := by
  have hfresh : ∀ t ∈ topics, t ∉ dictKeys ([] : TopicResult) := by
    intro t _ h
    exact absurd h (List.not_mem_nil t)
  refine ⟨?_, ?_, ?_⟩
  · have hspec := foldIns_spec (scrape_news_topic nenv) topics [] hnd hfresh
    refine ⟨by simpa [dictKeys] using hspec.1, ?_⟩
    intro p hp
    rcases hspec.2.2.2 p hp with hmem | hval
    · exact absurd hmem (List.not_mem_nil p)
    · rw [hval]
      exact scrape_news_topic_cases nenv p.1
  · unfold scrape_reddit_topics
    cases hsess : fenv.sessionOk with
    | false =>
      simp only [Bool.false_eq_true, if_false]
      exact ⟨(placeholderMap_spec redditPlaceholder topics).1,
        fun p hp => Or.inl ((placeholderMap_spec redditPlaceholder topics).2 p hp)⟩
    | true =>
      simp only [if_true]
      cases hloop : collectLoop (process_topic fenv) topics [] with
      | some res =>
        have hspec := collectLoop_spec (process_topic fenv) topics [] res hnd hfresh hloop
        refine ⟨by simpa [dictKeys] using hspec.1, ?_⟩
        intro p hp
        rcases hspec.2 p hp with hmem | hok
        · exact absurd hmem (List.not_mem_nil p)
        · exact Or.inr hok
      | none =>
        exact ⟨(placeholderMap_spec redditPlaceholder topics).1,
          fun p hp => Or.inl ((placeholderMap_spec redditPlaceholder topics).2 p hp)⟩
  · unfold scrape_twitter_topics
    cases hsess : tenv.sessionOk with
    | false =>
      simp only [Bool.false_eq_true, if_false]
      exact ⟨(placeholderMap_spec twitterPlaceholder topics).1,
        fun p hp => Or.inl ((placeholderMap_spec twitterPlaceholder topics).2 p hp)⟩
    | true =>
      simp only [if_true]
      cases hloop : collectLoop (process_twitter_topic tenv) topics [] with
      | some res =>
        have hspec := collectLoop_spec (process_twitter_topic tenv) topics [] res hnd hfresh hloop
        refine ⟨by simpa [dictKeys] using hspec.1, ?_⟩
        intro p hp
        rcases hspec.2 p hp with hmem | hok
        · exact absurd hmem (List.not_mem_nil p)
        · exact Or.inr hok
      | none =>
        exact ⟨(placeholderMap_spec twitterPlaceholder topics).1,
          fun p hp => Or.inl ((placeholderMap_spec twitterPlaceholder topics).2 p hp)⟩

/-- Concrete News environment used to instantiate C1. -/
def c1NewsEnv : NewsEnv :=
  { quotePlus := fun s => s
    brightdata := fun _ => .ok "headline one\nMore"
    directFetch := fun _ => .error "down"
    getText := fun s => s
    summarize := fun hdl => .ok ("SCRIPT " ++ hdl) }

/-- Concrete forum environment used to instantiate C1. -/
def c1ForumEnv : ForumEnv :=
  { sessionOk := true
    agent := fun t _ => .ok ("about " ++ t) }

/-- Witness instantiating C1 on two distinct topics with concrete
environments. -/
theorem C1_collectors_cover_topic_set_witness :
    ((["ai", "sports"] : List String) ≠ [] ∧ (["ai", "sports"] : List String).Nodup)
    ∧ ((dictKeys (scrape_news c1NewsEnv ["ai", "sports"]).news_analysis = ["ai", "sports"]
      ∧ ∀ p ∈ (scrape_news c1NewsEnv ["ai", "sports"]).news_analysis,
          p.2 = newsPlaceholder p.1 ∨ ∃ hdl, c1NewsEnv.summarize hdl = .ok p.2)
    ∧ (dictKeys (scrape_reddit_topics c1ForumEnv ["ai", "sports"]).reddit_analysis
        = ["ai", "sports"]
      ∧ ∀ p ∈ (scrape_reddit_topics c1ForumEnv ["ai", "sports"]).reddit_analysis,
          p.2 = redditPlaceholder p.1 ∨ ∃ n, process_topic c1ForumEnv p.1 = .ok p.2 n)
    ∧ (dictKeys (scrape_twitter_topics c1ForumEnv ["ai", "sports"]).twitter_analysis
        = ["ai", "sports"]
      ∧ ∀ p ∈ (scrape_twitter_topics c1ForumEnv ["ai", "sports"]).twitter_analysis,
          p.2 = twitterPlaceholder p.1
            ∨ ∃ n, process_twitter_topic c1ForumEnv p.1 = .ok p.2 n)) :=
  ⟨⟨by decide, by decide⟩,
    C1_collectors_cover_topic_set c1NewsEnv c1ForumEnv c1ForumEnv
      ["ai", "sports"] (by decide) (by decide)⟩

/-- Forum environment in which topic "A" succeeds on the first attempt and
topic "B" raises a non-retryable error. -/
def midBatchFailEnv : ForumEnv :=
  { sessionOk := true
    agent := fun t _ => if t = "A" then .ok "summaryA" else .error "boom" }

/-- C2 counterexample: in the Reddit collector, topic "A" succeeds with a
real summary, yet after topic "B" raises mid-batch the returned mapping
does not keep A's summary — every topic, A included, maps to the
placeholder, refuting "topics processed successfully earlier keep their
real summaries". -/
theorem C2_counterexample :
    process_topic midBatchFailEnv "A" = .ok "summaryA" 1
    ∧ dictGet (scrape_reddit_topics midBatchFailEnv ["A", "B"]).reddit_analysis "A"
        ≠ some "summaryA"
    ∧ (scrape_reddit_topics midBatchFailEnv ["A", "B"]).reddit_analysis
        = [("A", redditPlaceholder "A"), ("B", redditPlaceholder "B")] :=
  ⟨by decide, by decide, by decide⟩

/-- C2 (amended): in the News collector, each topic's value is computed
independently of the other topics (a failing topic records the placeholder
and the batch continues, earlier summaries kept), and no exception escapes
any collector even when the adapter fails non-retryably for every topic —
but in the Reddit and Twitter collectors such an all-topic failure (and,
per C9, any mid-batch failure) yields the placeholder for every topic
rather than preserving earlier successes. -/
theorem C2_amended_fault_isolation (nenv : NewsEnv) (fenv : ForumEnv)
    (topics : List String) (t : String) (hnd : topics.Nodup) (ht : t ∈ topics) :
    dictGet (scrape_news nenv topics).news_analysis t
      = some (scrape_news_topic nenv t)
    ∧ ((∀ s, ∃ m, nenv.summarize s = .error m) →
        dictGet (scrape_news nenv topics).news_analysis t
          = some (newsPlaceholder t))
    ∧ ((∀ tp n, ∃ m, fenv.agent tp n = .error m ∧ containsOverloaded m = false) →
        (scrape_reddit_topics fenv topics).reddit_analysis
          = topics.map (fun tp => (tp, redditPlaceholder tp)))
    ∧ ((∀ tp n, ∃ m, fenv.agent tp n = .error m ∧ containsOverloaded m = false) →
        (scrape_twitter_topics fenv topics).twitter_analysis
          = topics.map (fun tp => (tp, twitterPlaceholder tp))) := by
  have hfresh : ∀ u ∈ topics, u ∉ dictKeys ([] : TopicResult) := by
    intro u _ h
    exact absurd h (List.not_mem_nil u)
  have hget : dictGet (scrape_news nenv topics).news_analysis t
      = some (scrape_news_topic nenv t) :=
    (foldIns_spec (scrape_news_topic nenv) topics [] hnd hfresh).2.2.1 t ht
  have hallfail : (∀ tp n, ∃ m, fenv.agent tp n = .error m ∧ containsOverloaded m = false) →
      collectLoop (fun tp => retryRun processTopicRetryConfig
        (fun n => processTopicAttempt (fenv.agent tp n))) topics [] = none := by
    intro hf
    apply collectLoop_eq_none
    refine ⟨t, ht, ?_⟩
    rcases process_topic_nonretryable_raises fenv t ⟨(hf t 1).choose,
      (hf t 1).choose_spec⟩ with ⟨m, hm⟩
    intro s n heq
    rw [process_topic] at hm
    rw [hm] at heq
    exact absurd heq (by simp)
  refine ⟨hget, ?_, ?_, ?_⟩
  · intro hfail
    rw [hget, scrape_news_topic_summarize_fail nenv t hfail]
  · intro hf
    unfold scrape_reddit_topics
    cases fenv.sessionOk with
    | false => simp
    | true =>
      simp only [if_true]
      rw [show collectLoop (process_topic fenv) topics [] = none from hallfail hf]
  · intro hf
    unfold scrape_twitter_topics
    cases fenv.sessionOk with
    | false => simp
    | true =>
      simp only [if_true]
      rw [show collectLoop (process_twitter_topic fenv) topics [] = none from hallfail hf]

/-- Forum environment whose agent always fails with a non-retryable
error. -/
def allFailForumEnv : ForumEnv :=
  { sessionOk := true
    agent := fun _ _ => .error "network unreachable" }

/-- News environment whose summarization always fails. -/
def allFailNewsEnv : NewsEnv :=
  { quotePlus := fun s => s
    brightdata := fun _ => .ok "page"
    directFetch := fun _ => .ok "page"
    getText := fun s => s
    summarize := fun _ => .error "model down" }

/-- Witness instantiating the amended C2 on concrete all-failing
environments. -/
theorem C2_amended_fault_isolation_witness :
    ((["x", "y"] : List String).Nodup ∧ "x" ∈ (["x", "y"] : List String)
      ∧ (∀ s, ∃ m, allFailNewsEnv.summarize s = .error m)
      ∧ (∀ tp n, ∃ m, allFailForumEnv.agent tp n = .error m
          ∧ containsOverloaded m = false))
    ∧ (dictGet (scrape_news allFailNewsEnv ["x", "y"]).news_analysis "x"
        = some (scrape_news_topic allFailNewsEnv "x")
    ∧ ((∀ s, ∃ m, allFailNewsEnv.summarize s = .error m) →
        dictGet (scrape_news allFailNewsEnv ["x", "y"]).news_analysis "x"
          = some (newsPlaceholder "x"))
    ∧ ((∀ tp n, ∃ m, allFailForumEnv.agent tp n = .error m
          ∧ containsOverloaded m = false) →
        (scrape_reddit_topics allFailForumEnv ["x", "y"]).reddit_analysis
          = (["x", "y"] : List String).map (fun tp => (tp, redditPlaceholder tp)))
    ∧ ((∀ tp n, ∃ m, allFailForumEnv.agent tp n = .error m
          ∧ containsOverloaded m = false) →
        (scrape_twitter_topics allFailForumEnv ["x", "y"]).twitter_analysis
          = (["x", "y"] : List String).map (fun tp => (tp, twitterPlaceholder tp)))) :=
  ⟨⟨by decide, by decide, fun _ => ⟨"model down", rfl⟩,
      fun _ _ => ⟨"network unreachable", rfl, by decide⟩⟩,
    C2_amended_fault_isolation allFailNewsEnv allFailForumEnv ["x", "y"] "x"
      (by decide) (by decide)⟩

/-- Operation that always fails with a non-retryable exception. -/
def alwaysFatalOp : Nat → Except Exc String := fun _ => .error (.other "fatal")

/-- C3 counterexample: the retry wrapper on `NewsScraper.scrape_news`
(`stop_after_attempt(3)` with no retryable-kind filter and no
`reraise=True`) does not propagate a non-retryable failure immediately on
its first occurrence — an always-failing non-retryable operation is
attempted 3 times and the final outcome is a `RetryError` wrapper, not the
failure itself after one attempt. -/
theorem C3_counterexample :
    retryRun newsRetryConfig alwaysFatalOp ≠ RetryResult.raised (Exc.other "fatal") 1
    ∧ retryRun newsRetryConfig alwaysFatalOp
      = RetryResult.retryError (Exc.other "fatal") 3 :=
  ⟨by decide, by decide⟩

/-- C3 (amended): the Reddit/Twitter per-topic retry wrapper
(`processTopicRetryConfig`) attempts at most 3 times, retries only the
service-overloaded kind, propagates every non-retryable failure
immediately on its first occurrence, propagates the last failure after 3
exhausted attempts, and returns the success value with exactly 3 attempts
for a fail-fail-succeed operation; the News collector's wrapper
(`newsRetryConfig`) also stops after 3 attempts but retries failures of
every kind and, on exhaustion, raises a retry-exhausted wrapper around the
last failure instead of propagating it directly. -/
theorem C3_amended_retry_policy (op : Nat → Except Exc String) (v m : String)
    (e3 : Exc) :
    (processTopicRetryConfig.maxAttempts = 3
      ∧ processTopicRetryConfig.retryOn .overloaded = true
      ∧ processTopicRetryConfig.retryOn (.other m) = false)
    ∧ (op 1 = .error (.other m) →
        retryRun processTopicRetryConfig op = .raised (.other m) 1)
    ∧ (op 1 = .error .overloaded → op 2 = .error .overloaded → op 3 = .ok v →
        retryRun processTopicRetryConfig op = .ok v 3)
    ∧ (op 1 = .error .overloaded → op 2 = .error .overloaded → op 3 = .error e3 →
        retryRun processTopicRetryConfig op = .raised e3 3)
    ∧ (retryRun processTopicRetryConfig op).attempts ≤ 3
    ∧ (op 1 = .error (.other m) → op 2 = .error (.other m) →
        op 3 = .error (.other m) →
        retryRun newsRetryConfig op = .retryError (.other m) 3)
    ∧ (retryRun newsRetryConfig op).attempts ≤ 3 := by
  refine ⟨⟨rfl, rfl, rfl⟩, ?_, ?_, ?_,
    retryRun_attempts_le processTopicRetryConfig op (by norm_num [processTopicRetryConfig]),
    ?_, retryRun_attempts_le newsRetryConfig op (by norm_num [newsRetryConfig])⟩
  · intro h1
    simp [retryRun, retryGo, processTopicRetryConfig, h1]
  · intro h1 h2 h3
    simp [retryRun, retryGo, processTopicRetryConfig, h1, h2, h3]
  · intro h1 h2 h3
    cases e3 with
    | overloaded => simp [retryRun, retryGo, processTopicRetryConfig, h1, h2, h3]
    | other m3 => simp [retryRun, retryGo, processTopicRetryConfig, h1, h2, h3]
  · intro h1 h2 h3
    simp [retryRun, retryGo, newsRetryConfig, h1, h2, h3]

/-- Operation failing with the retryable overloaded kind on attempts 1-2
and succeeding on attempt 3. -/
def failTwiceOp : Nat → Except Exc String :=
  fun n => if n < 3 then .error .overloaded else .ok "stories"

/-- Operation that always fails with a different non-retryable message. -/
def alwaysAuthFailOp : Nat → Except Exc String := fun _ => .error (.other "auth")

/-- Witness instantiating the amended C3: fail-fail-succeed returns the
success value with exactly 3 attempts, and a first-attempt non-retryable
failure propagates immediately. -/
theorem C3_amended_retry_policy_witness :
    (failTwiceOp 1 = .error .overloaded ∧ failTwiceOp 2 = .error .overloaded
      ∧ failTwiceOp 3 = .ok "stories")
    ∧ retryRun processTopicRetryConfig failTwiceOp = .ok "stories" 3
    ∧ retryRun processTopicRetryConfig alwaysAuthFailOp = .raised (.other "auth") 1 :=
  ⟨⟨rfl, rfl, rfl⟩,
    (C3_amended_retry_policy failTwiceOp "stories" "auth" .overloaded).2.2.1
      rfl rfl rfl,
    (C3_amended_retry_policy alwaysAuthFailOp "stories" "auth" .overloaded).2.1 rfl⟩

/-- C4: in the News collector, a failing BrightData scrape falls back to a
direct HTTP fetch of the same URL before giving up (both failing yields
the placeholder), and empty headline extraction substitutes the
"Latest news about {topic}" stand-in before summarization — so an upstream
whose raw text cleans to empty still produces a summary from the stand-in
rather than raising. -/
theorem C4_news_fallbacks (env : NewsEnv) (t : String) :
    (∀ e raw, env.brightdata (generate_valid_news_url env t) = .error e →
        env.directFetch (generate_valid_news_url env t) = .ok raw →
        scrape_news_topic env t = news_pipeline_after_fetch env t raw)
    ∧ (∀ e e2, env.brightdata (generate_valid_news_url env t) = .error e →
        env.directFetch (generate_valid_news_url env t) = .error e2 →
        scrape_news_topic env t = newsPlaceholder t)
    ∧ (∀ raw s, clean_html_to_text env raw = "" →
        env.summarize ("Latest news about " ++ t) = .ok s →
        news_pipeline_after_fetch env t raw = s)
    ∧ extract_headlines "" = "" := by
  refine ⟨?_, ?_, ?_, by decide⟩
  · intro e raw hb hd
    simp only [scrape_news_topic, dictGet_urls_singleton, hb, hd]
  · intro e e2 hb hd
    simp only [scrape_news_topic, dictGet_urls_singleton, hb, hd]
  · intro raw s hclean hsum
    have he : extract_headlines "" = "" := by decide
    have hchoose : chooseHeadlines t "" = "Latest news about " ++ t := by
      unfold chooseHeadlines
      rw [if_pos (show ("".isEmpty || (strTrim "").isEmpty) = true by decide)]
    simp only [news_pipeline_after_fetch, hclean, he, hchoose, hsum]

/-- News environment whose primary fetch fails, whose direct fetch returns
an empty page and whose summarizer echoes its input. -/
def emptyUpstreamEnv : NewsEnv :=
  { quotePlus := fun s => s
    brightdata := fun _ => .error "brightdata 500"
    directFetch := fun _ => .ok ""
    getText := fun s => s
    summarize := fun hdl => .ok ("SCRIPT " ++ hdl) }

/-- Witness instantiating C4: with topic "x" and an upstream returning
empty raw text, the secondary fetch is used and the summary comes from the
generic stand-in. -/
theorem C4_news_fallbacks_witness :
    (emptyUpstreamEnv.brightdata (generate_valid_news_url emptyUpstreamEnv "x")
        = .error "brightdata 500"
      ∧ emptyUpstreamEnv.directFetch (generate_valid_news_url emptyUpstreamEnv "x")
        = .ok ""
      ∧ clean_html_to_text emptyUpstreamEnv "" = ""
      ∧ emptyUpstreamEnv.summarize ("Latest news about " ++ "x")
        = .ok "SCRIPT Latest news about x")
    ∧ scrape_news_topic emptyUpstreamEnv "x"
        = news_pipeline_after_fetch emptyUpstreamEnv "x" ""
    ∧ news_pipeline_after_fetch emptyUpstreamEnv "x" "" = "SCRIPT Latest news about x" :=
  ⟨⟨rfl, rfl, by decide, rfl⟩,
    (C4_news_fallbacks emptyUpstreamEnv "x").1 "brightdata 500" "" rfl rfl,
    (C4_news_fallbacks emptyUpstreamEnv "x").2.2.1 "" "SCRIPT Latest news about x"
      (by decide) rfl⟩

/-- C5: the orchestrator invokes the News collector exactly for selections
in {news, both, all}, the Reddit collector exactly for {reddit, both, all}
and the Twitter collector exactly for {twitter, all}, storing in the
bundle exactly what each selected collector returned. -/
theorem C5_source_selection (env : BackendEnv) (req : NewsRequest) :
    ((collectResults env req).news = some (scrape_news env.newsEnv req.topics)
      ↔ (req.source_type = "news" ∨ req.source_type = "both"
          ∨ req.source_type = "all"))
    ∧ ((collectResults env req).news = none
      ↔ ¬(req.source_type = "news" ∨ req.source_type = "both"
          ∨ req.source_type = "all"))
    ∧ ((collectResults env req).reddit
        = some (scrape_reddit_topics env.redditEnv req.topics)
      ↔ (req.source_type = "reddit" ∨ req.source_type = "both"
          ∨ req.source_type = "all"))
    ∧ ((collectResults env req).reddit = none
      ↔ ¬(req.source_type = "reddit" ∨ req.source_type = "both"
          ∨ req.source_type = "all"))
    ∧ ((collectResults env req).twitter
        = some (scrape_twitter_topics env.twitterEnv req.topics)
      ↔ (req.source_type = "twitter" ∨ req.source_type = "all"))
    ∧ ((collectResults env req).twitter = none
      ↔ ¬(req.source_type = "twitter" ∨ req.source_type = "all")) := by
  have hn := selectsNews_iff req.source_type
  have hr := selectsReddit_iff req.source_type
  have ht := selectsTwitter_iff req.source_type
  by_cases h1 : selectsNews req.source_type = true <;>
    by_cases h2 : selectsReddit req.source_type = true <;>
      by_cases h3 : selectsTwitter req.source_type = true <;>
        simp [collectResults, h1, h2, h3, ← hn, ← hr, ← ht]

/-- C6: the Composer contributes a block for a topic iff at least one of
that topic's News, Reddit or Twitter summaries is present and non-empty
(a block produced for a listed topic lands in the reduction input), and
exactly one language-model reduction call is made per compose invocation
regardless of the number of topics. -/
theorem C6_composer_block_selection (nd : Option NewsAnalysis)
    (rd : Option RedditAnalysis) (td : Option TwitterAnalysis)
    (model : String → Except String String) (topics : List String) (t : String)
    (ht : t ∈ topics) :
    ((topicBlockFor nd rd td t).isSome = true ↔
      (truthy (newsContentFor nd t) = true ∨ truthy (redditContentFor rd t) = true
        ∨ truthy (twitterContentFor td t) = true))
    ∧ (∀ b, topicBlockFor nd rd td t = some b → b ∈ topicBlocks nd rd td topics)
    ∧ (generate_broadcast_news model nd rd td topics).2 = 1 := by
  refine ⟨?_, ?_, rfl⟩
  · unfold topicBlockFor
    cases hn : truthy (newsContentFor nd t) <;>
      cases hr : truthy (redditContentFor rd t) <;>
        cases htw : truthy (twitterContentFor td t) <;>
          simp [hn, hr, htw]
  · intro b hb
    exact List.mem_filterMap.mpr ⟨t, ht, hb⟩

/-- Bundle from the C6 scenario: News material only for topic "A". -/
def c6News : Option NewsAnalysis := some ⟨[("A", "news about A")]⟩

/-- Bundle from the C6 scenario: Reddit material only for topic "B". -/
def c6Reddit : Option RedditAnalysis := some ⟨[("B", "forum about B")]⟩

/-- Witness instantiating C6 on the topics ["A", "B"] scenario with News
only for "A" and Reddit only for "B". -/
theorem C6_composer_block_selection_witness :
    ("A" ∈ (["A", "B"] : List String))
    ∧ (((topicBlockFor c6News c6Reddit none "A").isSome = true ↔
        (truthy (newsContentFor c6News "A") = true
          ∨ truthy (redditContentFor c6Reddit "A") = true
          ∨ truthy (twitterContentFor none "A") = true))
      ∧ (∀ b, topicBlockFor c6News c6Reddit none "A" = some b →
          b ∈ topicBlocks c6News c6Reddit none ["A", "B"])
      ∧ (generate_broadcast_news (fun _ => .ok "script") c6News c6Reddit none
          ["A", "B"]).2 = 1) :=
  ⟨by decide,
    C6_composer_block_selection c6News c6Reddit none (fun _ => .ok "script")
      ["A", "B"] "A" (by decide)⟩

/-- C7: a failure of the Composer's single reduction call, or of the
Translator's call, is fatal to the request — the error is propagated
without retry (the compose step still makes exactly one model call) and
without placeholder substitution, surfacing as a 500 request failure
carrying the failure's message. -/
theorem C7_compose_translate_failures_fatal (env : BackendEnv)
    (req : NewsRequest) (m : String) :
    ((generate_broadcast_news env.composeModel (collectResults env req).news
        (collectResults env req).reddit (collectResults env req).twitter
        req.topics).1 = .error m →
      generate_news_audio env req = .error (500, m))
    ∧ (∀ s, (generate_broadcast_news env.composeModel (collectResults env req).news
        (collectResults env req).reddit (collectResults env req).twitter
        req.topics).1 = .ok s →
      req.language ≠ "en-US" →
      (translate_for_language env.translateModel s req.language).1 = .error m →
      generate_news_audio env req = .error (500, m))
    ∧ (generate_broadcast_news env.composeModel (collectResults env req).news
        (collectResults env req).reddit (collectResults env req).twitter
        req.topics).2 = 1 := by
  refine ⟨?_, ?_, rfl⟩
  · intro h
    simp only [generate_news_audio, h]
  · intro s hs hlang htr
    simp only [generate_news_audio, hs, if_pos hlang, htr]

/-- Backend environment whose composer model always fails. -/
def composeFailEnv : BackendEnv :=
  { newsEnv := c1NewsEnv
    redditEnv := c1ForumEnv
    twitterEnv := c1ForumEnv
    composeModel := fun _ => .error "model down"
    translateModel := fun _ => .ok "translated"
    tts := fun _ _ => .ok "audio-bytes" }

/-- Request used to instantiate C7. -/
def c7Req : NewsRequest := ⟨["x"], "news", "en-US"⟩

/-- Witness instantiating C7: with a failing composer model the request
fails with status 500 and the model's error message. -/
theorem C7_compose_translate_failures_fatal_witness :
    ((generate_broadcast_news composeFailEnv.composeModel
        (collectResults composeFailEnv c7Req).news
        (collectResults composeFailEnv c7Req).reddit
        (collectResults composeFailEnv c7Req).twitter
        c7Req.topics).1 = .error "model down")
    ∧ generate_news_audio composeFailEnv c7Req = .error (500, "model down") :=
  ⟨rfl, (C7_compose_translate_failures_fatal composeFailEnv c7Req "model down").1 rfl⟩

/-- C8: the Translator is the identity with no model call whenever the
target language denotes the source language (any "en"-prefixed locale, in
particular "en-US"), and issues exactly one translation call for any other
target such as "hi-IN". -/
theorem C8_translator_english_noop (model : String → Except String String)
    (text : String) :
    translate_for_language model text "en-US" = (.ok text, 0)
    ∧ (∀ target, strStartsWith target "en" = true →
        translate_for_language model text target = (.ok text, 0))
    ∧ (∀ target, strStartsWith target "en" = false →
        (translate_for_language model text target).2 = 1)
    ∧ (translate_for_language model text "hi-IN").2 = 1 := by
  refine ⟨rfl, ?_, ?_, rfl⟩
  · intro target htar
    unfold translate_for_language
    rw [if_pos htar]
  · intro target htar
    unfold translate_for_language
    rw [if_neg (by simp [htar])]

/-- Witness instantiating C8 at the locales "en-US" and "hi-IN". -/
theorem C8_translator_english_noop_witness :
    (strStartsWith "en-GB" "en" = true ∧ strStartsWith "hi-IN" "en" = false)
    ∧ translate_for_language (fun _ => .ok "namaste") "hello" "en-GB"
        = (.ok "hello", 0)
    ∧ (translate_for_language (fun _ => .ok "namaste") "hello" "hi-IN").2 = 1 :=
  ⟨⟨by decide, by decide⟩,
    (C8_translator_english_noop (fun _ => .ok "namaste") "hello").2.1 "en-GB"
      (by decide),
    (C8_translator_english_noop (fun _ => .ok "namaste") "hello").2.2.1 "hi-IN"
      (by decide)⟩

/-- C9: in the Reddit and Twitter collectors, if processing any topic
raises an error escaping the retry wrapper mid-batch, the collector
discards all summaries already computed for earlier topics and maps every
supplied topic — earlier successes included — to that source's
unavailability placeholder. -/
theorem C9_mid_batch_failure_discards_batch (fenv tenv : ForumEnv)
    (topics : List String)
    (hfr : ∃ t ∈ topics, ∃ e n, process_topic fenv t = .raised e n)
    (htw : ∃ t ∈ topics, ∃ e n, process_twitter_topic tenv t = .raised e n) :
    (scrape_reddit_topics fenv topics).reddit_analysis
      = topics.map (fun t => (t, redditPlaceholder t))
    ∧ (scrape_twitter_topics tenv topics).twitter_analysis
      = topics.map (fun t => (t, twitterPlaceholder t)) := by
  constructor
  · unfold scrape_reddit_topics
    cases fenv.sessionOk with
    | false => simp
    | true =>
      simp only [if_true]
      have hnone : collectLoop (process_topic fenv) topics [] = none := by
        apply collectLoop_eq_none
        rcases hfr with ⟨t, ht, e, n, heq⟩
        refine ⟨t, ht, ?_⟩
        intro s n' hok
        rw [heq] at hok
        exact absurd hok (by simp)
      rw [hnone]
  · unfold scrape_twitter_topics
    cases tenv.sessionOk with
    | false => simp
    | true =>
      simp only [if_true]
      have hnone : collectLoop (process_twitter_topic tenv) topics [] = none := by
        apply collectLoop_eq_none
        rcases htw with ⟨t, ht, e, n, heq⟩
        refine ⟨t, ht, ?_⟩
        intro s n' hok
        rw [heq] at hok
        exact absurd hok (by simp)
      rw [hnone]

/-- Forum environment for the C9 witness: topic "A" succeeds, topic "B"
raises a non-retryable error. -/
def c9Env : ForumEnv :=
  { sessionOk := true
    agent := fun t _ => if t = "A" then .ok "okA" else .error "crash" }

/-- Witness instantiating C9: with "A" succeeding and "B" raising, both
collectors return the all-placeholder mapping. -/
theorem C9_mid_batch_failure_discards_batch_witness :
    ((∃ t ∈ (["A", "B"] : List String), ∃ e n, process_topic c9Env t = .raised e n)
      ∧ (∃ t ∈ (["A", "B"] : List String), ∃ e n,
          process_twitter_topic c9Env t = .raised e n)
      ∧ process_topic c9Env "A" = .ok "okA" 1)
    ∧ (scrape_reddit_topics c9Env ["A", "B"]).reddit_analysis
        = (["A", "B"] : List String).map (fun t => (t, redditPlaceholder t))
    ∧ (scrape_twitter_topics c9Env ["A", "B"]).twitter_analysis
        = (["A", "B"] : List String).map (fun t => (t, twitterPlaceholder t)) :=
  ⟨⟨⟨"B", by decide, .other "crash", 1, by decide⟩,
      ⟨"B", by decide, .other "crash", 1, by decide⟩, by decide⟩,
    (C9_mid_batch_failure_discards_batch c9Env c9Env ["A", "B"]
      ⟨"B", by decide, .other "crash", 1, by decide⟩
      ⟨"B", by decide, .other "crash", 1, by decide⟩).1,
    (C9_mid_batch_failure_discards_batch c9Env c9Env ["A", "B"]
      ⟨"B", by decide, .other "crash", 1, by decide⟩
      ⟨"B", by decide, .other "crash", 1, by decide⟩).2⟩

/-- C10: every locale code that is not one of the bare two-letter keys of
the voice table maps to the default voice "en-US-natalie"; in particular
every region-qualified code (containing a hyphen) misses the table, so the
backend's "en-US" or "hi-IN" requests are narrated with the default voice
regardless of the table's per-language entries. -/
theorem C10_region_locales_get_default_voice (lang : String)
    (h : dictGet VOICE_BY_LANG lang = none) :
    get_voice_for_language lang = "en-US-natalie"
    ∧ (∀ l : String, l.data.contains '-' = true →
        get_voice_for_language l = "en-US-natalie")
    ∧ get_voice_for_language "en-US" = "en-US-natalie"
    ∧ get_voice_for_language "hi-IN" = "en-US-natalie"
    ∧ get_voice_for_language "en" = "wayne" := by
  refine ⟨by simp [get_voice_for_language, h], ?_, by decide, by decide, by decide⟩
  intro l hl
  have hnone : dictGet VOICE_BY_LANG l = none := by
    apply dictGet_eq_none
    intro hmem
    simp only [VOICE_BY_LANG, dictKeys, List.map_cons, List.map_nil,
      List.mem_cons, List.not_mem_nil, or_false] at hmem
    rcases hmem with rfl | rfl | rfl | rfl | rfl | rfl | rfl | rfl | rfl | rfl | rfl <;>
      exact absurd hl (by decide)
  simp [get_voice_for_language, hnone]

/-- Witness instantiating C10 at the backend's default locale "en-US". -/
theorem C10_region_locales_get_default_voice_witness :
    dictGet VOICE_BY_LANG "en-US" = none
    ∧ get_voice_for_language "en-US" = "en-US-natalie" :=
  ⟨by decide, (C10_region_locales_get_default_voice "en-US" (by decide)).1⟩

end AwwNinja
